import Mathlib

/-!
Shallow embedding of the fakey.ai browser-extension scan pipeline.

Source files embedded:
  * src/background.js — message relay for tab capture (`handleMessage`)
  * src/popup.js      — scan controller state machine (`startScan`, `reset`,
    `captureCallback`, `onAnalysisOutcome`, `renderedIntents`) and the
    analysis request construction (`buildAnalysisRequest`)
  * src/App.tsx       — the React variant of the controller (`appStartScan`,
    `appCaptureCb`, `appReset`, `appRenderedIntents`)

JavaScript strings are Lean `String`s; JS `undefined`/`null` slots are
`Option`; JS truthiness of a possibly-missing string (`!x`) is `truthy`.
The external boundaries (the chrome capture API, the network fetch and the
JSON.parse of the response text) are modelled as explicit inputs to the
callbacks that consume them, which is exactly where the source receives
them.
-/

/-- The four status strings of popup.js (`state.status`) and App.tsx
(`AppStatus`). -/
inductive Status where
  | IDLE
  | SCANNING
  | COMPLETED
  | ERROR
deriving DecidableEq, Repr

/-- JSON values, as produced by `JSON.parse`. Numbers are modelled as
integers; only their type tag matters to the schema check. -/
inductive Json where
  | null
  | bool (b : Bool)
  | num (n : Int)
  | str (s : String)
  | arr (xs : List Json)
  | obj (fields : List (String × Json))

/-- JS truthiness of a string slot that may be `undefined`: `undefined`
and the empty string are falsy. -/
def truthy : Option String → Bool
  | none => false
  | some s => !s.isEmpty

/-- JS `a || b` on strings: `b` when `a` is empty (falsy), else `a`. -/
def jsOr (a b : String) : String := if a.isEmpty then b else a

/-- JS `a || b` where `a` is a possibly-`undefined` string. -/
def jsOrOpt (a : Option String) (b : String) : String :=
  match a with
  | none => b
  | some s => jsOr s b

/-! ## Background service worker (src/background.js) -/

/-- Outcome of `chrome.tabs.captureVisibleTab` as seen by its callback:
either `chrome.runtime.lastError` is set (with its message) or a data URL
is delivered. -/
inductive CaptureOutcome where
  | failure (msg : String)
  | success (dataUrl : String)
deriving DecidableEq, Repr

/-- The object passed to `sendResponse` in background.js: it carries a
`dataUrl` field or an `error` field. -/
structure BgResponse where
  dataUrl : Option String
  error : Option String
deriving DecidableEq, Repr

/-- src/background.js lines 12–25: the `chrome.runtime.onMessage`
listener. For `action = "capture_tab"` it invokes the capture API and
answers with `{error: lastError.message}` or `{dataUrl}`, returning `true`
to keep the channel open; for any other action it falls through, sending
nothing and returning `undefined` (modelled as `false`). The result pairs
the response sent (if any) with the listener's return value. -/
def handleMessage (action : String) (cap : CaptureOutcome) :
    Option BgResponse × Bool :=
  if action = "capture_tab" then
    match cap with
    | CaptureOutcome.failure m => (some ⟨none, some m⟩, true)
    | CaptureOutcome.success d => (some ⟨some d, none⟩, true)
  else
    (none, false)

/-! ## Analysis request construction (src/popup.js lines 112–128) -/

/-- The fixed forensic instruction of popup.js line 121. -/
def analysisPromptText : String :=
  "Analyze this image for deepfake artifacts. Return JSON: \x7bdeepfake_score: number, verdict: string, integrity: \x7bscore: number, notes: string\x7d, consistency: \x7bscore: number, notes: string\x7d, ai_pattern: \x7bscore: number, notes: string\x7d, temporal: \x7bscore: number, notes: string\x7d\x7d"

/-- JS `String.prototype.split(',')` on the underlying character list. -/
def splitCommaAux : List Char → List (List Char)
  | [] => [[]]
  | c :: rest =>
    let r := splitCommaAux rest
    if c = ',' then [] :: r
    else
      match r with
      | [] => [[c]]
      | h :: t => (c :: h) :: t

/-- JS `dataUrl.split(',')`. -/
def splitComma (s : String) : List String :=
  (splitCommaAux s.data).map (fun cs => ⟨cs⟩)

/-- popup.js line 113: `const base64Data = dataUrl.split(',')[1]` —
`undefined` (`none`) when the list has fewer than two elements. -/
def extractBase64 (dataUrl : String) : Option String :=
  (splitComma dataUrl)[1]?

/-- The analysis request body as assembled in popup.js lines 118–128: the
fixed prompt and the `inlineData.data` slot, which holds whatever
`split(',')[1]` produced (possibly `undefined`). -/
structure AnalysisRequest where
  promptText : String
  inlineData : Option String
deriving DecidableEq, Repr

/-- popup.js lines 112–134: the part of `performAnalysis` that runs before
the network call. It is total: no local validation rejects the payload. -/
def buildAnalysisRequest (dataUrl : String) : AnalysisRequest :=
  ⟨analysisPromptText, extractBase64 dataUrl⟩

/-! ## Popup controller state (src/popup.js lines 9–13) -/

/-- The mutable `state` object of popup.js: `status`, `result` (the value
`JSON.parse` returned, if any) and `error`. -/
structure ScanState where
  status : Status
  result : Option Json
  error : Option String

/-- The controller state together with the observable effects the claims
speak about: whether a capture / analysis round trip is in flight, how
many capture requests have been issued, and every analysis request issued
so far. -/
structure SysState where
  st : ScanState
  pendingCapture : Bool
  pendingAnalysis : Bool
  captureCount : Nat
  analysisReqs : List AnalysisRequest

/-- Popup state at popup open: `{status: 'IDLE', result: null, error:
null}`, nothing in flight, nothing issued. -/
def initState : SysState :=
  ⟨⟨Status.IDLE, none, none⟩, false, false, 0, []⟩

/-- src/popup.js lines 89–94: `startScan` sets `status = 'SCANNING'`,
`error = null` (the prior `result` is not touched) and sends one
`capture_tab` message. The function body has no guard on the current
status. -/
def startScan (s : SysState) : SysState :=
  { st := { status := Status.SCANNING, result := s.st.result, error := none }
    pendingCapture := true
    pendingAnalysis := s.pendingAnalysis
    captureCount := s.captureCount + 1
    analysisReqs := s.analysisReqs }

/-- src/popup.js lines 82–86: both the `reset-btn` and `retry-btn`
handlers run `state.status = 'IDLE'` and re-render; `result` and `error`
are not touched. -/
def reset (s : SysState) : SysState :=
  { s with st := { s.st with status := Status.IDLE } }

/-- The fixed message of popup.js line 97. -/
def captureFailedMsg : String :=
  "Capture failed. Ensure the extension has permission to access the current tab."

/-- What the capture callback in popup.js line 94 receives:
`chrome.runtime.lastError` truthiness and the `response` argument (which,
when present, is the background's `BgResponse`). -/
structure CaptureCbInput where
  lastErr : Bool
  response : Option BgResponse
deriving DecidableEq, Repr

/-- src/popup.js lines 94–109: the capture callback. On
`lastError || !response || !response.dataUrl` it sets `status = 'ERROR'`
with the fixed `captureFailedMsg` — the background's `error` message is
never read. Otherwise it calls `performAnalysis(response.dataUrl)`, which
issues exactly one analysis request. -/
def captureCallback (s : SysState) (i : CaptureCbInput) : SysState :=
  let failed :=
    i.lastErr ||
      (match i.response with
       | none => true
       | some r => !(truthy r.dataUrl))
  if failed then
    { s with
      st := { s.st with status := Status.ERROR, error := some captureFailedMsg }
      pendingCapture := false }
  else
    match i.response with
    | some r =>
      match r.dataUrl with
      | some d =>
        { s with
          pendingCapture := false
          pendingAnalysis := true
          analysisReqs := s.analysisReqs ++ [buildAnalysisRequest d] }
      | none => s
    | none => s

/-- What the analysis round trip in popup.js lines 130–146 delivers back
to the controller: an HTTP error (with the provider's optional message,
line 138), a missing textual payload (line 144), a `JSON.parse` exception
(line 146, with the exception's message), or the parsed JSON value. -/
inductive AnalysisOutcome where
  | httpError (msg : Option String)
  | emptyText
  | parseFail (errMsg : String)
  | parsed (j : Json)

/-- src/popup.js lines 136–148 together with the `catch` in lines 104–108:
every failure path throws and is caught with
`state.error = err.message || "Forensic analysis failed."` and
`status = 'ERROR'`; on a successful parse the value is stored unchecked
(`state.result = JSON.parse(text)`) and `status = 'COMPLETED'`. -/
def onAnalysisOutcome (s : SysState) (o : AnalysisOutcome) : SysState :=
  match o with
  | AnalysisOutcome.httpError m =>
    { s with
      st := { s.st with
              status := Status.ERROR
              error := some (jsOr (jsOrOpt m "API error") "Forensic analysis failed.") }
      pendingAnalysis := false }
  | AnalysisOutcome.emptyText =>
    { s with
      st := { s.st with
              status := Status.ERROR
              error := some (jsOr "Empty analysis result." "Forensic analysis failed.") }
      pendingAnalysis := false }
  | AnalysisOutcome.parseFail em =>
    { s with
      st := { s.st with
              status := Status.ERROR
              error := some (jsOr em "Forensic analysis failed.") }
      pendingAnalysis := false }
  | AnalysisOutcome.parsed j =>
    { s with
      st := { s.st with status := Status.COMPLETED, result := some j }
      pendingAnalysis := false }

/-! ## View intents (src/popup.js lines 15–87) -/

/-- The user intents a rendered view can emit: the scan button's handler
is `startScan`; the reset and retry buttons' handlers both set the status
back to `IDLE`. -/
inductive Intent where
  | startScanIntent
  | resetIntent
deriving DecidableEq, Repr

/-- src/popup.js `render` (lines 15–87): which click handlers exist in each
view. `scan-btn` exists only in the IDLE markup; `reset-btn` only in the
COMPLETED markup (which is emitted only when `state.result` is truthy);
`retry-btn` only in the ERROR markup; the SCANNING markup has no button. -/
def renderedIntents (st : ScanState) : List Intent :=
  match st.status with
  | Status.IDLE => [Intent.startScanIntent]
  | Status.SCANNING => []
  | Status.COMPLETED => if st.result.isSome then [Intent.resetIntent] else []
  | Status.ERROR => [Intent.resetIntent]

/-! ## React controller variant (src/App.tsx) -/

/-- The three `useState` hooks of App.tsx lines 24–26. -/
structure AppState where
  status : Status
  result : Option Json
  error : Option String

/-- src/App.tsx lines 68–84: `startScan` sets status to SCANNING and
clears the error (not the result); when the chrome runtime is available it
sends one `capture_tab` message (the Bool records that a message was
sent), otherwise it fails with a fixed message. -/
def appStartScan (s : AppState) (chromeAvailable : Bool) : AppState × Bool :=
  if chromeAvailable then
    (⟨Status.SCANNING, s.result, none⟩, true)
  else
    (⟨Status.ERROR, s.result, some "Extension environment unavailable."⟩, false)

/-- src/App.tsx lines 72–79: the capture callback. When `res?.dataUrl` is
truthy it invokes `performAnalysis` (the Bool); otherwise it sets the
error to `res?.error || "Tab capture failed. Check permissions."` — unlike
popup.js, the background's message is propagated when present and
nonempty. -/
def appCaptureCb (s : AppState) (res : Option BgResponse) : AppState × Bool :=
  if truthy (res.bind (fun r => r.dataUrl)) then
    (s, true)
  else
    (⟨Status.ERROR, s.result,
      some (jsOrOpt (res.bind (fun r => r.error)) "Tab capture failed. Check permissions.")⟩,
     false)

/-- src/App.tsx lines 129 and 136: both the NEW SCAN and the Retry button
run `setStatus(AppStatus.IDLE)` only. -/
def appReset (s : AppState) : AppState :=
  { s with status := Status.IDLE }

/-- src/App.tsx lines 94–138: which click handlers each rendered view
carries. The scan button exists only in the IDLE block; the NEW SCAN
button only in the `COMPLETED && result` block; the Retry button only in
the ERROR block; the SCANNING block has none. -/
def appRenderedIntents (s : AppState) : List Intent :=
  match s.status with
  | Status.IDLE => [Intent.startScanIntent]
  | Status.SCANNING => []
  | Status.COMPLETED => if s.result.isSome then [Intent.resetIntent] else []
  | Status.ERROR => [Intent.resetIntent]

/-! ## Schema check required by the spec

The spec (§4.3, §6, §7) requires the client to validate that the parsed
payload carries `deepfake_score`, `verdict` and the four metrics, each
metric with `score` and `notes`. The following definitions follow the
spec's words; nothing in src/popup.js or src/App.tsx performs this check
after `JSON.parse`, which is exactly what the theorems below compare. -/

/-- First-match lookup of a key in a parsed JSON object's field list. -/
def jsonLookup (fields : List (String × Json)) (key : String) : Option Json :=
  match fields with
  | [] => none
  | (k, v) :: rest => if k = key then some v else jsonLookup rest key

/-- The looked-up field exists and is a number. -/
def isNumField (v : Option Json) : Bool :=
  match v with
  | some (Json.num _) => true
  | _ => false

/-- The looked-up field exists and is a string. -/
def isStrField (v : Option Json) : Bool :=
  match v with
  | some (Json.str _) => true
  | _ => false

/-- The looked-up field is an object with a numeric `score` and a string
`notes`, the spec's `Metric`. -/
def metricOK (v : Option Json) : Bool :=
  match v with
  | some (Json.obj fs) =>
    isNumField (jsonLookup fs "score") && isStrField (jsonLookup fs "notes")
  | _ => false

/-- Spec §4.3: all required fields of an `AnalysisResult` are present with
the right shapes. -/
def hasRequiredFields (j : Json) : Bool :=
  match j with
  | Json.obj fs =>
    isNumField (jsonLookup fs "deepfake_score") &&
    isStrField (jsonLookup fs "verdict") &&
    metricOK (jsonLookup fs "integrity") &&
    metricOK (jsonLookup fs "consistency") &&
    metricOK (jsonLookup fs "ai_pattern") &&
    metricOK (jsonLookup fs "temporal")
  | _ => false

/-! ## Event system for the popup controller

One scan's asynchronous flow, exactly as popup.js wires it: a user click
can only fire through a handler that the current render attached
(`renderedIntents`), and each asynchronous callback fires once per
outstanding request. -/

/-- The events that can reach the controller. -/
inductive Event where
  | clickScan
  | clickReset
  | captureResp (i : CaptureCbInput)
  | analysisResp (o : AnalysisOutcome)

/-- One controller step: `none` when the event cannot occur (no such
handler attached, or no such request outstanding). -/
def step (s : SysState) (e : Event) : Option SysState :=
  match e with
  | Event.clickScan =>
    if Intent.startScanIntent ∈ renderedIntents s.st then some (startScan s) else none
  | Event.clickReset =>
    if Intent.resetIntent ∈ renderedIntents s.st then some (reset s) else none
  | Event.captureResp i =>
    if s.pendingCapture then some (captureCallback s i) else none
  | Event.analysisResp o =>
    if s.pendingAnalysis then some (onAnalysisOutcome s o) else none

/-- Run a sequence of events, recording the status after every step; fails
if any event cannot occur. -/
def runTrace (s : SysState) : List Event → Option (List Status × SysState)
  | [] => some ([], s)
  | e :: es =>
    match step s e with
    | none => none
    | some s' =>
      match runTrace s' es with
      | none => none
      | some (ts, f) => some (s'.st.status :: ts, f)

/-- COMPLETED and ERROR are the terminal display states. -/
def isTerminal (st : Status) : Bool :=
  match st with
  | Status.COMPLETED => true
  | Status.ERROR => true
  | _ => false

/-- Walk a status trace counting entries into SCANNING since the most
recent IDLE or terminal status; whenever a terminal status is reached,
require that count to be exactly one. -/
def scanOnceAux : Status → Nat → List Status → Bool
  | _, _, [] => true
  | prev, cnt, st :: rest =>
    match st with
    | Status.SCANNING =>
      scanOnceAux Status.SCANNING (if prev = Status.SCANNING then cnt else cnt + 1) rest
    | Status.IDLE => scanOnceAux Status.IDLE 0 rest
    | _ => (cnt == 1) && scanOnceAux st 0 rest

/-- A status trace (beginning at the initial IDLE) passes through exactly
one SCANNING stretch before every terminal status. -/
def scanOnce (tr : List Status) : Bool :=
  scanOnceAux Status.IDLE 0 tr

/-- Proof invariant tying the controller status to the in-flight requests
and to the count of SCANNING entries since the last rest point. -/
def ScanInv (s : SysState) (cnt : Nat) : Prop :=
  (s.st.status = Status.SCANNING → cnt = 1) ∧
  (s.st.status ≠ Status.SCANNING →
    cnt = 0 ∧ s.pendingCapture = false ∧ s.pendingAnalysis = false) ∧
  (s.pendingCapture = false ∨ s.pendingAnalysis = false)

theorem startIntent_mem (st : ScanState) :
    Intent.startScanIntent ∈ renderedIntents st → st.status = Status.IDLE := by
  obtain ⟨stat, res, err⟩ := st
  cases stat <;> cases res <;> simp [renderedIntents]

theorem resetIntent_mem (st : ScanState) :
    Intent.resetIntent ∈ renderedIntents st →
      st.status = Status.COMPLETED ∨ st.status = Status.ERROR := by
  obtain ⟨stat, res, err⟩ := st
  cases stat <;> cases res <;> simp [renderedIntents]

/-- C7: for every incoming `{action: "capture_tab"}` request, the
background listener sends exactly one response — `{dataUrl}` on success or
`{error}` on failure, never both, never neither — keeps the channel open
(returns `true`), and maps a capture API error to `{error: message}`. -/
theorem capture_tab_exactly_one_response (cap : CaptureOutcome) (m : String) :
    (∃ r : BgResponse,
      handleMessage "capture_tab" cap = (some r, true) ∧
      ((r.dataUrl.isSome = true ∧ r.error = none) ∨
        (r.dataUrl = none ∧ r.error.isSome = true))) ∧
    handleMessage "capture_tab" (CaptureOutcome.failure m) = (some ⟨none, some m⟩, true) := by
  constructor
  · cases cap with
    | failure msg => exact ⟨⟨none, some msg⟩, rfl, Or.inr ⟨rfl, rfl⟩⟩
    | success d => exact ⟨⟨some d, none⟩, rfl, Or.inl ⟨rfl, rfl⟩⟩
  · rfl

/-- C8: every runtime message whose `action` is not `"capture_tab"` gets
no response and the listener returns `undefined` (the channel is not kept
open). -/
theorem non_capture_message_ignored (a : String) (cap : CaptureOutcome)
    (h : a ≠ "capture_tab") : handleMessage a cap = (none, false) := by
  unfold handleMessage
  rw [if_neg h]

theorem non_capture_message_ignored_witness :
    ("ping" : String) ≠ "capture_tab" ∧
      handleMessage "ping" (CaptureOutcome.success "d") = (none, false) :=
  ⟨by decide, non_capture_message_ignored "ping" (CaptureOutcome.success "d") (by decide)⟩

/-- C9: in every rendered view (popup.js and App.tsx), the start-scan
intent is attachable only when the status is IDLE, the reset/retry intents
only when the status is COMPLETED or ERROR, and the SCANNING view emits no
intent at all, so user intents alone cannot start a second capture while a
scan is in flight. -/
theorem view_intent_gating (st : ScanState) (a : AppState) :
    (Intent.startScanIntent ∈ renderedIntents st → st.status = Status.IDLE) ∧
    (Intent.resetIntent ∈ renderedIntents st →
      st.status = Status.COMPLETED ∨ st.status = Status.ERROR) ∧
    (st.status = Status.SCANNING → renderedIntents st = []) ∧
    (Intent.startScanIntent ∈ appRenderedIntents a → a.status = Status.IDLE) ∧
    (Intent.resetIntent ∈ appRenderedIntents a →
      a.status = Status.COMPLETED ∨ a.status = Status.ERROR) ∧
    (a.status = Status.SCANNING → appRenderedIntents a = []) := by
  obtain ⟨stat, res, err⟩ := st
  obtain ⟨astat, ares, aerr⟩ := a
  cases stat <;> cases astat <;> cases res <;> cases ares <;>
    simp [renderedIntents, appRenderedIntents]

theorem view_intent_gating_witness :
    renderedIntents ⟨Status.SCANNING, none, none⟩ = [] ∧
      appRenderedIntents ⟨Status.SCANNING, none, none⟩ = [] :=
  ⟨(view_intent_gating ⟨Status.SCANNING, none, none⟩ ⟨Status.SCANNING, none, none⟩).2.2.1 rfl,
   (view_intent_gating ⟨Status.SCANNING, none, none⟩ ⟨Status.SCANNING, none, none⟩).2.2.2.2.2 rfl⟩

theorem splitCommaAux_no_comma (cs : List Char) (h : ',' ∉ cs) :
    splitCommaAux cs = [cs] := by
  induction cs with
  | nil => rfl
  | cons c rest ih =>
    have hc : ¬ c = ',' := fun hc => h (hc ▸ List.mem_cons_self c rest)
    have hr : ',' ∉ rest := fun hr => h (List.mem_cons_of_mem c hr)
    simp [splitCommaAux, hc, ih hr]

/-- C10: the analysis payload is `dataUrl.split(',')[1]`; when the data
URL contains no comma the extracted payload is `undefined` (`none`), yet
the capture callback still forwards the request to the remote service
(one analysis request is issued, carrying the `undefined` payload) instead
of rejecting it locally. -/
theorem commaless_payload_forwarded (s : String) (sys : SysState)
    (h1 : ',' ∉ s.data) (h2 : s.isEmpty = false) :
    extractBase64 s = none ∧
    captureCallback sys ⟨false, some ⟨some s, none⟩⟩ =
      { sys with
        pendingCapture := false
        pendingAnalysis := true
        analysisReqs := sys.analysisReqs ++ [⟨analysisPromptText, none⟩] } := by
  have hext : extractBase64 s = none := by
    simp [extractBase64, splitComma, splitCommaAux_no_comma s.data h1]
  refine ⟨hext, ?_⟩
  simp [captureCallback, truthy, h2, buildAnalysisRequest, hext]

theorem commaless_payload_forwarded_witness :
    (',' ∉ ("abc" : String).data) ∧ ("abc" : String).isEmpty = false ∧
    extractBase64 "abc" = none ∧
    captureCallback initState ⟨false, some ⟨some "abc", none⟩⟩ =
      { initState with
        pendingCapture := false
        pendingAnalysis := true
        analysisReqs := [⟨analysisPromptText, none⟩] } :=
  ⟨by decide, by decide,
   (commaless_payload_forwarded "abc" initState (by decide) (by decide)).1,
   (commaless_payload_forwarded "abc" initState (by decide) (by decide)).2⟩

/-- C4 counterexample: from the terminal Failed state carrying error
"boom", `reset()` (both popup.js button handlers and App.tsx's
`setStatus(IDLE)`) yields IDLE but leaves `error = "boom"`, not `null`,
refuting the claim that reset yields Idle with `error = null`. -/
theorem reset_retains_fields_counterexample :
    (reset ⟨⟨Status.ERROR, none, some "boom"⟩, false, false, 1, []⟩).st.status
      = Status.IDLE ∧
    (reset ⟨⟨Status.ERROR, none, some "boom"⟩, false, false, 1, []⟩).st.error
      = some "boom" ∧
    (appReset ⟨Status.ERROR, none, some "boom"⟩).error = some "boom" ∧
    some "boom" ≠ (none : Option String) :=
  ⟨rfl, rfl, rfl, by simp⟩

/-- C4 amended: `reset()` from any terminal state yields IDLE but retains
the prior `result` and `error` fields unchanged (they are not nulled; the
Idle view simply does not display them), in both popup.js and App.tsx. -/
theorem reset_yields_idle_retaining_fields (s : SysState) (a : AppState)
    (h : isTerminal s.st.status = true) (ha : isTerminal a.status = true) :
    (reset s).st.status = Status.IDLE ∧
    (reset s).st.result = s.st.result ∧
    (reset s).st.error = s.st.error ∧
    (reset s).pendingCapture = s.pendingCapture ∧
    (appReset a).status = Status.IDLE ∧
    (appReset a).result = a.result ∧
    (appReset a).error = a.error :=
  ⟨rfl, rfl, rfl, rfl, rfl, rfl, rfl⟩

theorem reset_yields_idle_retaining_fields_witness :
    isTerminal (⟨⟨Status.COMPLETED, some (Json.num 7), none⟩, false, false, 1, []⟩ :
        SysState).st.status = true ∧
    (reset ⟨⟨Status.COMPLETED, some (Json.num 7), none⟩, false, false, 1, []⟩).st.result
      = some (Json.num 7) :=
  ⟨rfl,
   (reset_yields_idle_retaining_fields
      ⟨⟨Status.COMPLETED, some (Json.num 7), none⟩, false, false, 1, []⟩
      ⟨Status.ERROR, none, some "e"⟩ rfl rfl).2.1⟩

/-- C5 counterexample: `startScan()` from the COMPLETED state with a prior
result keeps that result (`state.result` is never cleared in popup.js
lines 89–94, nor in App.tsx lines 68–71), refuting "clears the prior
result and error". -/
theorem startScan_retains_result_counterexample :
    (startScan ⟨⟨Status.COMPLETED, some (Json.num 5), none⟩, false, false, 1, []⟩).st.result
      = some (Json.num 5) ∧
    (startScan ⟨⟨Status.COMPLETED, some (Json.num 5), none⟩, false, false, 1, []⟩).st.status
      = Status.SCANNING ∧
    (appStartScan ⟨Status.COMPLETED, some (Json.num 5), none⟩ true).1.result
      = some (Json.num 5) ∧
    some (Json.num 5) ≠ (none : Option Json) :=
  ⟨rfl, rfl, rfl, fun h => Option.noConfusion h⟩

/-- C5 amended: from IDLE or a terminal state, `startScan()` moves to
SCANNING, clears the prior error (but not the prior result, which is
retained until a new analysis overwrites it) and issues exactly one
capture request, in both popup.js and App.tsx. -/
theorem startScan_from_rest (s : SysState) (a : AppState)
    (h : s.st.status = Status.IDLE ∨ isTerminal s.st.status = true)
    (ha : a.status = Status.IDLE ∨ isTerminal a.status = true) :
    (startScan s).st.status = Status.SCANNING ∧
    (startScan s).st.error = none ∧
    (startScan s).st.result = s.st.result ∧
    (startScan s).captureCount = s.captureCount + 1 ∧
    (startScan s).pendingCapture = true ∧
    (startScan s).analysisReqs = s.analysisReqs ∧
    (appStartScan a true).1.status = Status.SCANNING ∧
    (appStartScan a true).1.error = none ∧
    (appStartScan a true).1.result = a.result ∧
    (appStartScan a true).2 = true :=
  ⟨rfl, rfl, rfl, rfl, rfl, rfl, rfl, rfl, rfl, rfl⟩

theorem startScan_from_rest_witness :
    ((⟨⟨Status.IDLE, none, none⟩, false, false, 0, []⟩ : SysState).st.status
        = Status.IDLE ∨
      isTerminal (⟨⟨Status.IDLE, none, none⟩, false, false, 0, []⟩ :
        SysState).st.status = true) ∧
    (startScan ⟨⟨Status.IDLE, none, none⟩, false, false, 0, []⟩).captureCount = 1 :=
  ⟨Or.inl rfl,
   (startScan_from_rest ⟨⟨Status.IDLE, none, none⟩, false, false, 0, []⟩
      ⟨Status.IDLE, none, none⟩ (Or.inl rfl) (Or.inl rfl)).2.2.2.1⟩

/-- C3 counterexample: invoking `startScan()` while already SCANNING (one
capture already issued) issues a second capture request — the function
body has no guard — refuting "no second capture request is issued". -/
theorem startScan_while_scanning_counterexample :
    (startScan ⟨⟨Status.SCANNING, none, none⟩, true, false, 1, []⟩).captureCount = 2 ∧
    (1 : Nat) ≠ 2 ∧
    (appStartScan ⟨Status.SCANNING, none, none⟩ true).2 = true :=
  ⟨rfl, by decide, rfl⟩

/-- C3 amended: `startScan()` itself is unguarded — invoked while SCANNING
it issues another capture request — but the rendered SCANNING view
attaches no start-scan handler, so no user intent can invoke it while a
scan is in flight (`step` rejects the click). -/
theorem startScan_unguarded_view_protected (s : SysState)
    (h : s.st.status = Status.SCANNING) :
    (startScan s).captureCount = s.captureCount + 1 ∧
    Intent.startScanIntent ∉ renderedIntents s.st ∧
    step s Event.clickScan = none := by
  have hmem : Intent.startScanIntent ∉ renderedIntents s.st := by
    intro hm
    have := startIntent_mem s.st hm
    rw [h] at this
    cases this
  exact ⟨rfl, hmem, by simp [step, hmem]⟩

theorem startScan_unguarded_view_protected_witness :
    (⟨⟨Status.SCANNING, none, none⟩, true, false, 1, []⟩ : SysState).st.status
      = Status.SCANNING ∧
    step ⟨⟨Status.SCANNING, none, none⟩, true, false, 1, []⟩ Event.clickScan = none :=
  ⟨rfl,
   (startScan_unguarded_view_protected
      ⟨⟨Status.SCANNING, none, none⟩, true, false, 1, []⟩ rfl).2.2⟩

/-- C6 counterexample: while SCANNING, the capture response
`{error: "Permission denied"}` drives popup.js to ERROR with the fixed
message of line 97 — not with "Permission denied" — refuting "carrying
that same message m" (no analysis request is issued, though). -/
theorem capture_error_message_dropped_counterexample :
    (captureCallback ⟨⟨Status.SCANNING, none, none⟩, true, false, 1, []⟩
        ⟨false, some ⟨none, some "Permission denied"⟩⟩).st.status = Status.ERROR ∧
    (captureCallback ⟨⟨Status.SCANNING, none, none⟩, true, false, 1, []⟩
        ⟨false, some ⟨none, some "Permission denied"⟩⟩).st.error
      = some captureFailedMsg ∧
    captureFailedMsg ≠ "Permission denied" ∧
    (captureCallback ⟨⟨Status.SCANNING, none, none⟩, true, false, 1, []⟩
        ⟨false, some ⟨none, some "Permission denied"⟩⟩).analysisReqs = [] :=
  ⟨rfl, rfl, by decide, rfl⟩

/-- C6 amended: a capture response `Error(m)` received while SCANNING
makes the state Failed and never invokes the analysis client, but the
message carried differs by implementation: popup.js stores the fixed
capture-failure hint (discarding `m`), while App.tsx propagates `m` itself
whenever `m` is nonempty. -/
theorem capture_error_to_failed_no_analysis (s : SysState) (a : AppState)
    (m : String) (hm : m.isEmpty = false) :
    (captureCallback s ⟨false, some ⟨none, some m⟩⟩).st.status = Status.ERROR ∧
    (captureCallback s ⟨false, some ⟨none, some m⟩⟩).st.error = some captureFailedMsg ∧
    (captureCallback s ⟨false, some ⟨none, some m⟩⟩).analysisReqs = s.analysisReqs ∧
    (captureCallback s ⟨false, some ⟨none, some m⟩⟩).pendingAnalysis = s.pendingAnalysis ∧
    appCaptureCb a (some ⟨none, some m⟩) =
      (⟨Status.ERROR, a.result, some m⟩, false) := by
  refine ⟨rfl, rfl, rfl, rfl, ?_⟩
  simp [appCaptureCb, truthy, jsOrOpt, jsOr, hm]

theorem capture_error_to_failed_no_analysis_witness :
    ("Permission denied" : String).isEmpty = false ∧
    appCaptureCb ⟨Status.SCANNING, none, none⟩ (some ⟨none, some "Permission denied"⟩) =
      (⟨Status.ERROR, none, some "Permission denied"⟩, false) :=
  ⟨by decide,
   (capture_error_to_failed_no_analysis
      ⟨⟨Status.SCANNING, none, none⟩, true, false, 1, []⟩
      ⟨Status.SCANNING, none, none⟩ "Permission denied" (by decide)).2.2.2.2⟩

/-- C1 counterexample: a full scan in which the analysis payload parses as
the JSON object `{}` — lacking every required field — ends COMPLETED with
that partial value as the result, not in the Failed state, refuting the
claim. -/
theorem malformed_result_completes_counterexample :
    runTrace initState
      [Event.clickScan,
       Event.captureResp ⟨false, some ⟨some "a,b", none⟩⟩,
       Event.analysisResp (AnalysisOutcome.parsed (Json.obj []))] =
      some ([Status.SCANNING, Status.SCANNING, Status.COMPLETED],
        ⟨⟨Status.COMPLETED, some (Json.obj []), none⟩, false, false, 1,
          [⟨analysisPromptText, some "b"⟩]⟩) ∧
    hasRequiredFields (Json.obj []) = false ∧
    Status.COMPLETED ≠ Status.ERROR :=
  ⟨rfl, rfl, by decide⟩

/-- C1 amended: the controller performs no schema validation after
`JSON.parse`: every successfully parsed payload — even one missing
required fields — yields COMPLETED with the parsed value stored as the
result; Failed arises only from an HTTP error, an empty payload, or a
parse failure. -/
theorem parsed_json_always_completes (s : SysState) (j : Json)
    (h : hasRequiredFields j = false) :
    (onAnalysisOutcome s (AnalysisOutcome.parsed j)).st.status = Status.COMPLETED ∧
    (onAnalysisOutcome s (AnalysisOutcome.parsed j)).st.result = some j ∧
    (onAnalysisOutcome s AnalysisOutcome.emptyText).st.status = Status.ERROR ∧
    (onAnalysisOutcome s (AnalysisOutcome.parseFail "x")).st.status = Status.ERROR ∧
    (onAnalysisOutcome s (AnalysisOutcome.httpError none)).st.status = Status.ERROR :=
  ⟨rfl, rfl, rfl, rfl, rfl⟩

theorem parsed_json_always_completes_witness :
    hasRequiredFields (Json.obj []) = false ∧
    (onAnalysisOutcome initState (AnalysisOutcome.parsed (Json.obj []))).st.status
      = Status.COMPLETED :=
  ⟨rfl, (parsed_json_always_completes initState (Json.obj []) rfl).1⟩

theorem captureCallback_shape (s : SysState) (i : CaptureCbInput) :
    ((captureCallback s i).st.status = Status.ERROR ∧
      (captureCallback s i).pendingCapture = false ∧
      (captureCallback s i).pendingAnalysis = s.pendingAnalysis) ∨
    ((captureCallback s i).st.status = s.st.status ∧
      (captureCallback s i).pendingCapture = false ∧
      (captureCallback s i).pendingAnalysis = true) := by
  cases hle : i.lastErr with
  | true => left; simp [captureCallback, hle]
  | false =>
    cases hres : i.response with
    | none => left; simp [captureCallback, hle, hres]
    | some r =>
      cases hdu : r.dataUrl with
      | none => left; simp [captureCallback, hle, hres, hdu, truthy]
      | some d =>
        cases hde : d.isEmpty with
        | true => left; simp [captureCallback, hle, hres, hdu, truthy, hde]
        | false => right; simp [captureCallback, hle, hres, hdu, truthy, hde]

theorem onAnalysisOutcome_shape (s : SysState) (o : AnalysisOutcome) :
    ((onAnalysisOutcome s o).st.status = Status.COMPLETED ∨
      (onAnalysisOutcome s o).st.status = Status.ERROR) ∧
    (onAnalysisOutcome s o).pendingCapture = s.pendingCapture ∧
    (onAnalysisOutcome s o).pendingAnalysis = false := by
  cases o <;> simp [onAnalysisOutcome]

theorem runTrace_scanOnceAux (es : List Event) :
    ∀ (s : SysState) (cnt : Nat), ScanInv s cnt →
      ∀ ts f, runTrace s es = some (ts, f) →
        scanOnceAux s.st.status cnt ts = true := by
  induction es with
  | nil =>
    intro s cnt _ ts f h
    simp only [runTrace, Option.some.injEq, Prod.mk.injEq] at h
    obtain ⟨h1, _⟩ := h
    subst h1
    rfl
  | cons e es ih =>
    intro s cnt hInv ts f h
    obtain ⟨hSc, hRest, hExcl⟩ := hInv
    simp only [runTrace] at h
    cases hstep : step s e with
    | none => rw [hstep] at h; simp at h
    | some s1 =>
      rw [hstep] at h
      simp only [] at h
      cases hrun : runTrace s1 es with
      | none => rw [hrun] at h; simp at h
      | some p =>
        obtain ⟨ts1, f1⟩ := p
        rw [hrun] at h
        simp only [Option.some.injEq, Prod.mk.injEq] at h
        obtain ⟨hts, hf⟩ := h
        subst hts
        cases e with
        | clickScan =>
          simp only [step] at hstep
          split at hstep
          case isTrue hc =>
            injection hstep with hs1
            subst hs1
            have hidle := startIntent_mem s.st hc
            obtain ⟨hcnt, hpC, hpA⟩ := hRest (by rw [hidle]; intro hh; cases hh)
            subst hcnt
            rw [hidle]
            show scanOnceAux Status.IDLE 0 (Status.SCANNING :: ts1) = true
            simp only [scanOnceAux]
            rw [if_neg (by intro hh; cases hh)]
            exact ih (startScan s) 1
              ⟨fun _ => rfl, fun hne => absurd rfl hne, Or.inr hpA⟩ ts1 f1 hrun
          case isFalse hc => cases hstep
        | clickReset =>
          simp only [step] at hstep
          split at hstep
          case isTrue hc =>
            injection hstep with hs1
            subst hs1
            have hterm := resetIntent_mem s.st hc
            have hne : s.st.status ≠ Status.SCANNING := by
              cases hterm with
              | inl hh => rw [hh]; intro hk; cases hk
              | inr hh => rw [hh]; intro hk; cases hk
            obtain ⟨hcnt, hpC, hpA⟩ := hRest hne
            subst hcnt
            show scanOnceAux s.st.status 0 (Status.IDLE :: ts1) = true
            simp only [scanOnceAux]
            exact ih (reset s) 0
              ⟨fun hh => Status.noConfusion hh, fun _ => ⟨rfl, hpC, hpA⟩,
               Or.inl hpC⟩ ts1 f1 hrun
          case isFalse hc => cases hstep
        | captureResp i =>
          simp only [step] at hstep
          split at hstep
          case isTrue hpc =>
            injection hstep with hs1
            subst hs1
            have hscan : s.st.status = Status.SCANNING := by
              by_contra hne
              rw [(hRest hne).2.1] at hpc
              cases hpc
            have hcnt : cnt = 1 := hSc hscan
            subst hcnt
            have hpA : s.pendingAnalysis = false := by
              cases hExcl with
              | inl hh => rw [hh] at hpc; cases hpc
              | inr hh => exact hh
            cases captureCallback_shape s i with
            | inl hshape =>
              obtain ⟨hst, hpc1, hpa1⟩ := hshape
              rw [hscan, hst]
              show scanOnceAux Status.SCANNING 1 (Status.ERROR :: ts1) = true
              simp only [scanOnceAux, beq_self_eq_true, Bool.true_and]
              have hrec := ih (captureCallback s i) 0
                ⟨fun hh => absurd (hst ▸ hh) (by intro hk; cases hk),
                 fun _ => ⟨rfl, hpc1, hpa1 ▸ hpA⟩, Or.inl hpc1⟩ ts1 f1 hrun
              rw [hst] at hrec
              exact hrec
            | inr hshape =>
              obtain ⟨hst, hpc1, hpa1⟩ := hshape
              rw [hscan, hst, hscan]
              show scanOnceAux Status.SCANNING 1 (Status.SCANNING :: ts1) = true
              simp only [scanOnceAux, if_pos]
              have hmid : (captureCallback s i).st.status = Status.SCANNING := by
                rw [hst, hscan]
              have hrec := ih (captureCallback s i) 1
                ⟨fun _ => rfl, fun hne => absurd hmid hne, Or.inl hpc1⟩ ts1 f1 hrun
              rw [hmid] at hrec
              exact hrec
          case isFalse hpc => cases hstep
        | analysisResp o =>
          simp only [step] at hstep
          split at hstep
          case isTrue hpa =>
            injection hstep with hs1
            subst hs1
            have hscan : s.st.status = Status.SCANNING := by
              by_contra hne
              rw [(hRest hne).2.2] at hpa
              cases hpa
            have hcnt : cnt = 1 := hSc hscan
            subst hcnt
            have hpC : s.pendingCapture = false := by
              cases hExcl with
              | inl hh => exact hh
              | inr hh => rw [hh] at hpa; cases hpa
            obtain ⟨hterm, hpc1, hpa1⟩ := onAnalysisOutcome_shape s o
            have hinv1 : ScanInv (onAnalysisOutcome s o) 0 := by
              refine ⟨?_, fun _ => ⟨rfl, hpc1 ▸ hpC, hpa1⟩, Or.inr hpa1⟩
              intro hh
              cases hterm with
              | inl hk => rw [hk] at hh; cases hh
              | inr hk => rw [hk] at hh; cases hh
            cases hterm with
            | inl hst =>
              rw [hscan, hst]
              show scanOnceAux Status.SCANNING 1 (Status.COMPLETED :: ts1) = true
              simp only [scanOnceAux, beq_self_eq_true, Bool.true_and]
              have hrec := ih (onAnalysisOutcome s o) 0 hinv1 ts1 f1 hrun
              rw [hst] at hrec
              exact hrec
            | inr hst =>
              rw [hscan, hst]
              show scanOnceAux Status.SCANNING 1 (Status.ERROR :: ts1) = true
              simp only [scanOnceAux, beq_self_eq_true, Bool.true_and]
              have hrec := ih (onAnalysisOutcome s o) 0 hinv1 ts1 f1 hrun
              rw [hst] at hrec
              exact hrec
          case isFalse hpa => cases hstep

/-- C2: along every realizable event sequence from the initial IDLE state,
whenever the status becomes COMPLETED or ERROR it has been SCANNING
exactly once since the most recent IDLE or terminal status. -/
theorem completed_preceded_by_one_scanning (es : List Event) (ts : List Status)
    (f : SysState) (h : runTrace initState es = some (ts, f)) :
    scanOnce (Status.IDLE :: ts) = true := by
  have hInv : ScanInv initState 0 :=
    ⟨fun hh => Status.noConfusion hh, fun _ => ⟨rfl, rfl, rfl⟩, Or.inl rfl⟩
  have hmain := runTrace_scanOnceAux es initState 0 hInv ts f h
  simpa [scanOnce, scanOnceAux, initState] using hmain

theorem completed_preceded_by_one_scanning_witness :
    runTrace initState
      [Event.clickScan,
       Event.captureResp ⟨false, some ⟨some "a,b", none⟩⟩,
       Event.analysisResp (AnalysisOutcome.parsed (Json.num 1)),
       Event.clickReset] =
      some ([Status.SCANNING, Status.SCANNING, Status.COMPLETED, Status.IDLE],
        ⟨⟨Status.IDLE, some (Json.num 1), none⟩, false, false, 1,
          [⟨analysisPromptText, some "b"⟩]⟩) ∧
    scanOnce [Status.IDLE, Status.SCANNING, Status.SCANNING, Status.COMPLETED,
      Status.IDLE] = true :=
  ⟨rfl,
   completed_preceded_by_one_scanning
     [Event.clickScan,
      Event.captureResp ⟨false, some ⟨some "a,b", none⟩⟩,
      Event.analysisResp (AnalysisOutcome.parsed (Json.num 1)),
      Event.clickReset]
     [Status.SCANNING, Status.SCANNING, Status.COMPLETED, Status.IDLE]
     ⟨⟨Status.IDLE, some (Json.num 1), none⟩, false, false, 1,
       [⟨analysisPromptText, some "b"⟩]⟩ rfl⟩
